import Mathlib

/-!
Verification development for the SSHDynamicProxy repository.

The repository bundles two applications: a Windows SSH dynamic-proxy
tool (configuration `stunnel.conf`, launcher `run.bat`, README) whose
orchestration core is specified by its documentation, and an Electron
installer-package cataloguing tool (JavaScript sources).  Pure fragments
of both are embedded below; the tunnel-orchestration definitions that
have no source file in the snapshot are modelled from the specification
and marked as such in their doc comments.
-/

namespace SSHDynamicProxy

/-- Role of one layer in a session's chain: the obfuscation transport or
the SSH dynamic-forward process. -/
inductive Role
  | obfuscation
  | sshForward
deriving DecidableEq, Repr

/-- A host/port pair. -/
structure Endpoint where
  host : String
  port : Nat
deriving DecidableEq, Repr

/-- The closed set of obfuscation kinds a profile may choose. -/
inductive ObfsKind
  | none
  | tlsRelay
  | pluggableTransport
  | shadowsocks
  | v2ray
deriving DecidableEq, Repr

/-- Modelled from the spec: a Profile record (identity, target SSH
host/port, authentication descriptor presence, obfuscation kind and
parameters, requested local SOCKS port, local port for the obfuscation
layer's accept endpoint). -/
structure Profile where
  name : String
  targetHost : String
  targetPort : Nat
  hasCredential : Bool
  sshBackend : String
  obfs : ObfsKind
  params : List (String × String)
  localSocksPort : Nat
  obfsLocalPort : Nat
deriving DecidableEq, Repr

/-- One layer of a LayerSpec: role, local bind endpoint, upstream
endpoint, external command. -/
structure Layer where
  role : Role
  bind : Endpoint
  upstream : Endpoint
  command : String
deriving DecidableEq, Repr

/-- The loopback host every local accept endpoint binds to
(`127.0.0.1` in stunnel.conf). -/
def localHost : String := "127.0.0.1"

/-- Logical binary name required by each obfuscation kind
(stunnel per run.bat/stunnel.conf; obfs4proxy, Shadowsocks, V2Ray per
the README). -/
def obfsBinaryName : ObfsKind → Option String
  | ObfsKind.none => Option.none
  | ObfsKind.tlsRelay => some "stunnel"
  | ObfsKind.pluggableTransport => some "obfs4proxy"
  | ObfsKind.shadowsocks => some "sslocal"
  | ObfsKind.v2ray => some "v2ray"

/-- The external command string for a profile's obfuscation layer. -/
def obfsCommand (p : Profile) : String :=
  (obfsBinaryName p.obfs).getD ""

/-- The obfuscation layer's local accept endpoint for a profile. -/
def obfsAccept (p : Profile) : Endpoint :=
  ⟨localHost, p.obfsLocalPort⟩

/-- The ssh-forward layer's local SOCKS bind endpoint for a profile. -/
def sshLocalBind (p : Profile) : Endpoint :=
  ⟨localHost, p.localSocksPort⟩

/-- The profile's target SSH endpoint. -/
def target (p : Profile) : Endpoint :=
  ⟨p.targetHost, p.targetPort⟩

/-- Modelled from the spec: `buildLayerSpec` of the Protocol Adapter
(section 4.2); the orchestrator source (main.py) is not in the
repository snapshot.  Kind `none` yields one ssh-forward layer whose
upstream is the profile's target; every other kind yields the
obfuscation layer (accepting locally, connecting to the target)
followed by the ssh-forward layer whose upstream is the obfuscation
layer's accept endpoint. -/
def buildLayerSpec (p : Profile) : List Layer :=
  match p.obfs with
  | ObfsKind.none =>
      [⟨Role.sshForward, sshLocalBind p, target p, "ssh -D"⟩]
  | _ =>
      [⟨Role.obfuscation, obfsAccept p, target p, obfsCommand p⟩,
       ⟨Role.sshForward, sshLocalBind p, obfsAccept p, "ssh -D"⟩]

/-- Global section of stunnel.conf, as key/value directives. -/
def stunnelGlobalConfig : List (String × String) :=
  [("cert", "stunnel.pem"),
   ("pid", "stunnel.pid"),
   ("client", "yes"),
   ("debug", "7"),
   ("output", "stunnel.log")]

/-- Service section `[ssh-tunnel]` of stunnel.conf, as key/value
directives; `server` and `port` substitute the `%REMOTE_SSH_SERVER%`
and `%REMOTE_SSH_PORT%` environment variables set by run.bat. -/
def stunnelServiceConfig (server : String) (port : String) : List (String × String) :=
  [("accept", "127.0.0.1:4433"),
   ("connect", server ++ ":" ++ port),
   ("verifyChain", "yes"),
   ("CAfile", "ca-cert.pem"),
   ("checkHost", server),
   ("sslVersion", "TLSv1.2"),
   ("ciphers", "HIGH:!aNULL:!MD5:!RC4"),
   ("options", "NO_SSLv2"),
   ("options", "NO_SSLv3"),
   ("options", "NO_TLSv1"),
   ("options", "NO_TLSv1.1"),
   ("renegotiation", "no"),
   ("TIMEOUTclose", "0"),
   ("delay", "no"),
   ("failover", "prio"),
   ("socket", "l:TCP_NODELAY=1"),
   ("socket", "r:TCP_NODELAY=1"),
   ("socket", "l:SO_KEEPALIVE=1"),
   ("socket", "r:SO_KEEPALIVE=1"),
   ("curve", "secp384r1"),
   ("ECDH", "auto"),
   ("sessionCacheSize", "1000"),
   ("sessionCacheTimeout", "300")]

/-- Modelled from the spec: validation problems reported by the
Protocol Adapter's `validate` (section 4.2); the validator source is
not in the repository snapshot. -/
inductive ValidationError
  | missingCredentials
  | invalidPort (field : String) (value : Nat)
  | binaryUnresolvable (logicalName : String)
deriving DecidableEq, Repr

/-- Modelled from the spec: the orchestration error taxonomy
(section 7). -/
inductive OrchError
  | validationFailed (errs : List ValidationError)
  | binaryNotFoundErr (name : String) (searched : List String)
  | portInUse
  | layerStartFailed (r : Role)
  | layerCrashed (r : Role) (exitCode : Int)
  | healthCheckFailed
  | alreadyRunning
  | notRunning
deriving DecidableEq, Repr

/-- Modelled from the spec: the session phases of the orchestrator
state machine (section 4.4). -/
inductive Phase
  | stopped
  | starting
  | connected
  | stopping
  | failed (e : OrchError)
deriving DecidableEq, Repr

/-- A session-machine state: phase, whether every layer's process is
alive, and whether the outermost layer's local endpoint has accepted at
least one successful health probe. -/
structure MState where
  phase : Phase
  allAlive : Bool
  probed : Bool
deriving DecidableEq, Repr

/-- The initial session-machine state. -/
def initState : MState := ⟨Phase.stopped, false, false⟩

/-- Modelled from the spec: the transition relation of the session
state machine (sections 4.4 and 4.5), indexed by the profile's
validation result; the orchestrator source is not in the repository
snapshot. -/
inductive Step (errs : List ValidationError) : MState → MState → Prop
  | startValid : errs = [] →
      Step errs ⟨Phase.stopped, false, false⟩ ⟨Phase.starting, false, false⟩
  | startInvalid : errs ≠ [] →
      Step errs ⟨Phase.stopped, false, false⟩
        ⟨Phase.failed (OrchError.validationFailed errs), false, false⟩
  | layersUp :
      Step errs ⟨Phase.starting, false, false⟩ ⟨Phase.starting, true, false⟩
  | firstProbe :
      Step errs ⟨Phase.starting, true, false⟩ ⟨Phase.starting, true, true⟩
  | spawnFail (r : Role) (a b : Bool) :
      Step errs ⟨Phase.starting, a, b⟩
        ⟨Phase.failed (OrchError.layerStartFailed r), false, false⟩
  | toConnected :
      Step errs ⟨Phase.starting, true, true⟩ ⟨Phase.connected, true, true⟩
  | layerCrash (r : Role) (c : Int) :
      Step errs ⟨Phase.connected, true, true⟩
        ⟨Phase.failed (OrchError.layerCrashed r c), false, false⟩
  | healthFail :
      Step errs ⟨Phase.connected, true, true⟩
        ⟨Phase.failed OrchError.healthCheckFailed, false, false⟩
  | stopRequest :
      Step errs ⟨Phase.connected, true, true⟩ ⟨Phase.stopping, true, true⟩
  | stopDuringStart (a b : Bool) :
      Step errs ⟨Phase.starting, a, b⟩ ⟨Phase.stopping, a, b⟩
  | allTerminated (a b : Bool) :
      Step errs ⟨Phase.stopping, a, b⟩ ⟨Phase.stopped, false, false⟩
  | ackFailed (e : OrchError) (a b : Bool) :
      Step errs ⟨Phase.failed e, a, b⟩ ⟨Phase.stopped, false, false⟩
  | stopIdempotent :
      Step errs ⟨Phase.stopped, false, false⟩ ⟨Phase.stopped, false, false⟩

/-- A state reachable from the initial state of the session machine. -/
def Reachable (errs : List ValidationError) (s : MState) : Prop :=
  Relation.ReflTransGen (Step errs) initState s

/-- Supervisor actions the orchestrator issues while starting or
stopping a session's layers. -/
inductive Action
  | spawn (r : Role)
  | kill (r : Role)
deriving DecidableEq, Repr

/-- Outcome of the layer-start sequence. -/
inductive StartResult
  | started
  | failedAt (r : Role)
deriving DecidableEq, Repr

/-- Modelled from the spec: the layer-start sequence of the
orchestrator (section 4.4), spawning layers strictly in plan order; on
a spawn failure the previously started layers (held in reverse start
order) are killed and the sequence reports the failing role.  `ok`
tells whether spawning a layer of a given role succeeds. -/
def startLayersAux (ok : Role → Bool) : List Layer → List Role → List Action × StartResult
  | [], _ => ([], StartResult.started)
  | l :: rest, startedRev =>
      if ok l.role then
        let next := startLayersAux ok rest (l.role :: startedRev)
        (Action.spawn l.role :: next.1, next.2)
      else
        (Action.spawn l.role :: startedRev.map Action.kill, StartResult.failedAt l.role)

/-- The layer-start sequence for a plan, beginning with no layer
started. -/
def startLayers (ok : Role → Bool) (plan : List Layer) : List Action × StartResult :=
  startLayersAux ok plan []

/-- Modelled from the spec: teardown kills the started layers in
reverse start order (section 4.4). -/
def stopLayers (startedOrder : List Role) : List Action :=
  startedOrder.reverse.map Action.kill

/-- A phase is terminal when the session is destroyed and removed from
the registry: only `stopped` (a failure stays registered until it is
acknowledged). -/
def nonTerminal : Phase → Bool
  | Phase.stopped => false
  | _ => true

/-- The process-wide Session Registry: profile identity to the phase of
its registered session. -/
abbrev Registry := List (String × Phase)

/-- Outcome of a registry-mediated start request. -/
inductive StartReqRes
  | accepted
  | rejectedAlreadyRunning
deriving DecidableEq, Repr

/-- Modelled from the spec: the Session Registry's handling of a start
request (sections 4.4 and 9); a profile with an active, non-terminal
session is rejected with AlreadyRunning and the registry is unchanged,
otherwise a fresh starting session is registered for the profile. -/
def startReq (reg : Registry) (pid : String) : Registry × StartReqRes :=
  match reg.lookup pid with
  | some ph =>
      if nonTerminal ph then (reg, StartReqRes.rejectedAlreadyRunning)
      else ((pid, Phase.starting) :: reg.eraseP (fun e => e.1 == pid), StartReqRes.accepted)
  | Option.none => ((pid, Phase.starting) :: reg, StartReqRes.accepted)

/-- Filesystem visibility of external binaries: names present in the
bundled application directory and names resolvable on the system
search path. -/
structure BinEnv where
  bundled : List String
  searchPath : List String
deriving DecidableEq, Repr

/-- The bundled application directory, written `%~dp0` in run.bat. -/
def appDir : String := "%~dp0"

/-- Result of resolving a logical binary name. -/
inductive ResolveResult
  | found (path : String)
  | notFound (logicalName : String) (searched : List String)
deriving DecidableEq, Repr

/-- Embedding of the resolution order of run.bat lines 2-16: the
bundled application directory is probed for `name.exe` first, then the
system search path (`where name`); if both miss, resolution fails
naming the logical binary and the searched locations. -/
def resolve (env : BinEnv) (name : String) : ResolveResult :=
  if (name ++ ".exe") ∈ env.bundled then ResolveResult.found (appDir ++ name ++ ".exe")
  else if name ∈ env.searchPath then ResolveResult.found name
  else ResolveResult.notFound name [appDir, "PATH"]

/-- Whether the external binary an obfuscation kind requires can be
resolved (kinds without one count as resolvable). -/
def resolvable (env : BinEnv) (k : ObfsKind) : Bool :=
  match obfsBinaryName k with
  | Option.none => true
  | some n =>
      match resolve env n with
      | ResolveResult.found _ => true
      | ResolveResult.notFound _ _ => false

/-- A TCP port is valid when it lies in 1-65535. -/
def portValid (n : Nat) : Bool :=
  decide (1 ≤ n ∧ n ≤ 65535)

/-- Modelled from the spec: profile validation (section 4.2) collects
every problem — missing credentials, out-of-range ports, an
unresolvable obfuscation binary — into one list rather than stopping
at the first. -/
def validate (env : BinEnv) (p : Profile) : List ValidationError :=
  (if p.hasCredential then [] else [ValidationError.missingCredentials]) ++
  (if portValid p.targetPort then [] else [ValidationError.invalidPort "targetPort" p.targetPort]) ++
  (if portValid p.localSocksPort then [] else [ValidationError.invalidPort "localSocksPort" p.localSocksPort]) ++
  (match obfsBinaryName p.obfs with
   | Option.none => []
   | some n =>
       if resolvable env p.obfs then [] else [ValidationError.binaryUnresolvable n])

/-- Phase and supervisor actions produced by one start request. -/
structure StartOutcome where
  phase : Phase
  actions : List Action
deriving DecidableEq, Repr

/-- Modelled from the spec: the synchronous part of `start`
(section 4.4) — validation runs first and a non-empty error list moves
the session straight to Failed with ValidationFailed and spawns
nothing; otherwise the layer plan is built and its layers spawned in
order. -/
def start (env : BinEnv) (ok : Role → Bool) (p : Profile) : StartOutcome :=
  match validate env p with
  | [] =>
      match startLayers ok (buildLayerSpec p) with
      | (acts, StartResult.started) => ⟨Phase.starting, acts⟩
      | (acts, StartResult.failedAt r) => ⟨Phase.failed (OrchError.layerStartFailed r), acts⟩
  | e :: es => ⟨Phase.failed (OrchError.validationFailed (e :: es)), []⟩

end SSHDynamicProxy

namespace PackageSense

/-- Fixed-point rendering of `num / den` with two decimal digits,
rounding to the nearest hundredth with ties away from zero, as
JavaScript `Number.prototype.toFixed(2)` does on the exactly
representable dyadic quotients produced by `formatSize`. -/
def toFixed2 (num den : Nat) : String :=
  let r := (200 * num + den) / (2 * den)
  toString (r / 100) ++ "." ++ (if r % 100 < 10 then "0" else "") ++ toString (r % 100)

/-- Embedding of `formatSize` from the renderer source: byte counts
below 1024 are shown in B, below 1048576 in KB, below 1073741824 in MB,
otherwise in GB, the three scaled forms with two decimals. -/
def formatSize (bytes : Nat) : String :=
  if bytes < 1024 then toString bytes ++ " B"
  else if bytes < 1048576 then toFixed2 bytes 1024 ++ " KB"
  else if bytes < 1073741824 then toFixed2 bytes 1048576 ++ " MB"
  else toFixed2 bytes 1073741824 ++ " GB"

/-- A file record as collected by `readFilesRecursively`: name, full
path, size and modification time. -/
structure FileRec where
  name : String
  path : String
  size : Nat
  modifiedTime : Nat
deriving DecidableEq, Repr

/-- A filesystem subtree: a regular file with size and modification
time, or a directory with its entries; `readable` is false when
listing the directory throws. -/
inductive FSTree
  | file (name : String) (size : Nat) (mtime : Nat)
  | dir (name : String) (readable : Bool) (entries : List FSTree)
deriving Repr

/-- The suffix of a character list starting at its last dot, if any. -/
def extSuffix : List Char → Option (List Char)
  | [] => Option.none
  | c :: cs =>
      match extSuffix cs with
      | some r => some r
      | Option.none => if c = '.' then some (c :: cs) else Option.none

/-- Embedding of Node's `path.extname` on a base name: the substring
from the last dot to the end, empty when there is no dot or when the
only dot is the leading character. -/
def extname (s : String) : String :=
  match s.toList with
  | [] => ""
  | _ :: rest =>
      match extSuffix rest with
      | some r => String.mk r
      | Option.none => ""

/-- ASCII lowercasing as `String.prototype.toLowerCase` acts on the
extension strings compared here, written over the character list. -/
def toLowerStr (s : String) : String := String.mk (s.toList.map Char.toLower)

/-- The fixed set of installer and archive extensions recognised by the
folder scan. -/
def packageExts : List String :=
  [".exe", ".msi", ".dmg", ".pkg", ".zip", ".rar", ".7z", ".tar", ".gz"]

/-- Windows path join as used by the main process (`path.join`). -/
def pathJoin (a b : String) : String := a ++ "\\" ++ b

mutual

/-- Embedding of `readFilesRecursively` from the main-process source:
list the folder (an unreadable folder's exception is caught and yields
the empty collection), recurse into each subdirectory, and keep the
regular files whose lowercased extension is one of `packageExts`. -/
def readFilesRecursively (folderPath : String) : FSTree → List FileRec
  | FSTree.file _ _ _ => []
  | FSTree.dir _ false _ => []
  | FSTree.dir _ true entries => readEntries folderPath entries

/-- Processing of a folder's entry list, in listing order: a
subdirectory contributes its recursive collection, a file contributes
itself when its lowercased extension is recognised. -/
def readEntries (folderPath : String) : List FSTree → List FileRec
  | [] => []
  | e :: es =>
      (match e with
       | FSTree.file n sz mt =>
           if toLowerStr (extname n) ∈ packageExts then
             [⟨n, pathJoin folderPath n, sz, mt⟩]
           else []
       | FSTree.dir n r cs =>
           readFilesRecursively (pathJoin folderPath n) (FSTree.dir n r cs)) ++
      readEntries folderPath es

end

/-- An installer package record passed to the AI analysis service. -/
structure Pkg where
  name : String
  path : String
  size : Nat
  modifiedTime : Nat
deriving DecidableEq, Repr

/-- A single package's analysis result: description, suggested
category and tags, and the package path stamped in by
`analyzePackage`. -/
structure AnalysisResult where
  description : String
  suggestedCategory : String
  suggestedTags : List String
  path : String
deriving DecidableEq, Repr

/-- Embedding of `batchAnalyzePackages` from aiService.js: the
packages are analysed sequentially in input order; a package whose
analysis fails is skipped (its error only logged) and the batch
continues, returning the successful results.  The per-package analysis
(configuration read, HTTP call, response parsing) is abstracted as the
fallible function `analyze`. -/
def batchAnalyzePackages (analyze : Pkg → Except String AnalysisResult) :
    List Pkg → List AnalysisResult
  | [] => []
  | pkg :: rest =>
      (match analyze pkg with
       | Except.ok r => [r]
       | Except.error _ => []) ++ batchAnalyzePackages analyze rest

end PackageSense

/-- C10: `formatSize` is total on non-negative byte counts and the four
branch conditions partition the naturals, exactly one applying to each
input: below 1024 the count is shown in B, from 1024 below 1048576 in
KB (divided by 1024, two decimals), from 1048576 below 1073741824 in MB,
and from 1073741824 on in GB. -/
theorem PackageSense.formatSize_branches (b : Nat) :
    (b < 1024 → formatSize b = toString b ++ " B") ∧
    (1024 ≤ b → b < 1048576 → formatSize b = toFixed2 b 1024 ++ " KB") ∧
    (1048576 ≤ b → b < 1073741824 → formatSize b = toFixed2 b 1048576 ++ " MB") ∧
    (1073741824 ≤ b → formatSize b = toFixed2 b 1073741824 ++ " GB") ∧
    (b < 1024 ∨ (1024 ≤ b ∧ b < 1048576) ∨ (1048576 ≤ b ∧ b < 1073741824) ∨ 1073741824 ≤ b) ∧
    (¬ (b < 1024 ∧ 1024 ≤ b) ∧ ¬ (b < 1048576 ∧ 1048576 ≤ b) ∧ ¬ (b < 1073741824 ∧ 1073741824 ≤ b)) := by
  refine ⟨?_, ?_, ?_, ?_, by omega, by omega⟩
  · intro h1
    simp [PackageSense.formatSize, h1]
  · intro h1 h2
    have n1 : ¬ b < 1024 := by omega
    simp [PackageSense.formatSize, n1, h2]
  · intro h1 h2
    have n1 : ¬ b < 1024 := by omega
    have n2 : ¬ b < 1048576 := by omega
    simp [PackageSense.formatSize, n1, n2, h2]
  · intro h1
    have n1 : ¬ b < 1024 := by omega
    have n2 : ¬ b < 1048576 := by omega
    have n3 : ¬ b < 1073741824 := by omega
    simp [PackageSense.formatSize, n1, n2, n3]

/-- C10 witness: the branch equations evaluated at 1024 bytes. -/
theorem PackageSense.formatSize_branches_w :
    PackageSense.formatSize 1024 = PackageSense.toFixed2 1024 1024 ++ " KB" :=
  (PackageSense.formatSize_branches 1024).2.1 (by decide) (by decide)

/-- C1: for every profile, the layer plan satisfies the chaining
invariant — with a non-`none` obfuscation kind the plan is the
obfuscation layer followed by the ssh-forward layer whose upstream
equals the obfuscation layer's local accept endpoint; with kind `none`
the plan is exactly one ssh-forward layer whose upstream is the
profile's target host/port. -/
theorem SSHDynamicProxy.buildLayerSpec_chaining (p : Profile) :
    (p.obfs ≠ ObfsKind.none →
      ∃ ob sf : Layer, buildLayerSpec p = [ob, sf] ∧
        ob.role = Role.obfuscation ∧ sf.role = Role.sshForward ∧
        sf.upstream = ob.bind ∧ ob.upstream = target p) ∧
    (p.obfs = ObfsKind.none →
      ∃ sf : Layer, buildLayerSpec p = [sf] ∧
        sf.role = Role.sshForward ∧ sf.upstream = target p) := by
  constructor
  · intro hne
    cases hk : p.obfs
    · exact absurd hk hne
    all_goals
      exact ⟨⟨Role.obfuscation, obfsAccept p, target p, obfsCommand p⟩,
             ⟨Role.sshForward, sshLocalBind p, obfsAccept p, "ssh -D"⟩,
             by simp [buildLayerSpec, hk], rfl, rfl, rfl, rfl⟩
  · intro he
    exact ⟨⟨Role.sshForward, sshLocalBind p, target p, "ssh -D"⟩,
           by simp [buildLayerSpec, he], rfl, rfl⟩

/-- C1 witness: the chaining invariant evaluated on a tls-relay
profile. -/
theorem SSHDynamicProxy.buildLayerSpec_chaining_w :
    ∃ ob sf : Layer,
      buildLayerSpec ⟨"P2", "your.server.com", 443, true, "openssh",
        ObfsKind.tlsRelay, [], 1080, 4433⟩ = [ob, sf] ∧
      ob.role = Role.obfuscation ∧ sf.role = Role.sshForward ∧
      sf.upstream = ob.bind ∧
      ob.upstream = target ⟨"P2", "your.server.com", 443, true, "openssh",
        ObfsKind.tlsRelay, [], 1080, 4433⟩ :=
  (SSHDynamicProxy.buildLayerSpec_chaining _).1 (by decide)

/-- C7: for every substitution of the remote server and port, the
generated stunnel relay configuration pins the TLS version to 1.2 with
SSLv2, SSLv3, TLS 1.0 and TLS 1.1 excluded, contains no compression
directive, uses the strong cipher set, mandates certificate-chain
verification against the configured CA file, and verifies the peer
hostname against the expected server name. -/
theorem SSHDynamicProxy.stunnelServiceConfig_secureDefaults (server port : String) :
    ("sslVersion", "TLSv1.2") ∈ stunnelServiceConfig server port ∧
    ("options", "NO_SSLv2") ∈ stunnelServiceConfig server port ∧
    ("options", "NO_SSLv3") ∈ stunnelServiceConfig server port ∧
    ("options", "NO_TLSv1") ∈ stunnelServiceConfig server port ∧
    ("options", "NO_TLSv1.1") ∈ stunnelServiceConfig server port ∧
    (∀ kv ∈ stunnelServiceConfig server port, kv.1 ≠ "compression") ∧
    ("ciphers", "HIGH:!aNULL:!MD5:!RC4") ∈ stunnelServiceConfig server port ∧
    ("verifyChain", "yes") ∈ stunnelServiceConfig server port ∧
    ("CAfile", "ca-cert.pem") ∈ stunnelServiceConfig server port ∧
    ("checkHost", server) ∈ stunnelServiceConfig server port := by
  refine ⟨?_, ?_, ?_, ?_, ?_, ?_, ?_, ?_, ?_, ?_⟩ <;>
    simp [stunnelServiceConfig]

/-- C7 witness: the no-compression clause discharged on a concrete
directive of a concrete configuration. -/
theorem SSHDynamicProxy.stunnelServiceConfig_secureDefaults_w :
    ("accept", "127.0.0.1:4433").1 ≠ "compression" :=
  (SSHDynamicProxy.stunnelServiceConfig_secureDefaults "your.server.com" "22").2.2.2.2.2.1
    ("accept", "127.0.0.1:4433") (by simp [SSHDynamicProxy.stunnelServiceConfig])

/-- C2: in every reachable state of the session machine, being observed
in Connected means every layer's process is alive and the outermost
endpoint has accepted at least one successful health probe; moreover
the only transition into Connected is from Starting and requires all
layers alive plus a first successful probe in its source state. -/
theorem SSHDynamicProxy.connected_requires_alive_and_probe
    (errs : List ValidationError) (s : MState) (h : Reachable errs s) :
    (s.phase = Phase.connected → s.allAlive = true ∧ s.probed = true) ∧
    (∀ t u : MState, Step errs t u → u.phase = Phase.connected →
      t.phase = Phase.starting ∧ t.allAlive = true ∧ t.probed = true) := by
  refine ⟨?_, ?_⟩
  · induction h with
    | refl => intro hc; simp [initState] at hc
    | tail h2 st ih => intro hc; cases st <;> simp_all
  · intro t u st hc
    cases st <;> simp_all

/-- C2 witness: a concrete run stopped-starting-connected, with the
invariant read off at the connected state. -/
theorem SSHDynamicProxy.connected_requires_alive_and_probe_w :
    (MState.mk Phase.connected true true).allAlive = true ∧
    (MState.mk Phase.connected true true).probed = true :=
  (SSHDynamicProxy.connected_requires_alive_and_probe [] ⟨Phase.connected, true, true⟩
    (Relation.ReflTransGen.head (Step.startValid rfl)
      (Relation.ReflTransGen.head Step.layersUp
        (Relation.ReflTransGen.head Step.firstProbe
          (Relation.ReflTransGen.head Step.toConnected
            Relation.ReflTransGen.refl))))).1 rfl

/-- C3: for every profile and every pattern of spawn outcomes, the
layers of the plan are spawned strictly in dependency order — the
obfuscation layer first, so the ssh-forward layer is never started
before it — a spawn failure tears the previously started layers down
in reverse order, reports the failing role, and moves the session to
Failed with LayerStartFailed naming that role, and a normal stop kills
the layers in reverse start order. -/
theorem SSHDynamicProxy.layer_start_order_and_teardown (p : Profile) (ok : Role → Bool) :
    (p.obfs = ObfsKind.none →
      ((ok Role.sshForward = true →
          startLayers ok (buildLayerSpec p) =
            ([Action.spawn Role.sshForward], StartResult.started)) ∧
       (ok Role.sshForward = false →
          startLayers ok (buildLayerSpec p) =
            ([Action.spawn Role.sshForward], StartResult.failedAt Role.sshForward)))) ∧
    (p.obfs ≠ ObfsKind.none →
      ((ok Role.obfuscation = false →
          startLayers ok (buildLayerSpec p) =
            ([Action.spawn Role.obfuscation], StartResult.failedAt Role.obfuscation)) ∧
       (ok Role.obfuscation = true → ok Role.sshForward = false →
          startLayers ok (buildLayerSpec p) =
            ([Action.spawn Role.obfuscation, Action.spawn Role.sshForward,
              Action.kill Role.obfuscation], StartResult.failedAt Role.sshForward)) ∧
       (ok Role.obfuscation = true → ok Role.sshForward = true →
          startLayers ok (buildLayerSpec p) =
            ([Action.spawn Role.obfuscation, Action.spawn Role.sshForward],
             StartResult.started)) ∧
       stopLayers [Role.obfuscation, Role.sshForward] =
         [Action.kill Role.sshForward, Action.kill Role.obfuscation])) ∧
    (∀ (env : BinEnv) (r : Role) (acts : List Action), validate env p = [] →
      startLayers ok (buildLayerSpec p) = (acts, StartResult.failedAt r) →
      start env ok p = ⟨Phase.failed (OrchError.layerStartFailed r), acts⟩) := by
  refine ⟨?_, ?_, ?_⟩
  · intro hk
    constructor <;> intro hsf <;>
      simp [buildLayerSpec, hk, startLayers, startLayersAux, hsf]
  · intro hne
    cases hk : p.obfs
    · exact absurd hk hne
    all_goals
      refine ⟨fun hob => by
          simp [buildLayerSpec, hk, startLayers, startLayersAux, hob],
        fun hob hsf => by
          simp [buildLayerSpec, hk, startLayers, startLayersAux, hob, hsf],
        fun hob hsf => by
          simp [buildLayerSpec, hk, startLayers, startLayersAux, hob, hsf],
        by simp [stopLayers]⟩
  · intro env r acts hv hsl
    simp [start, hv, hsl]

/-- C3 witness: with a tls-relay profile whose ssh-forward spawn
fails, the obfuscation layer is spawned first and then killed during
teardown, and the failure names the ssh-forward role. -/
theorem SSHDynamicProxy.layer_start_order_and_teardown_w :
    startLayers (fun r => match r with | Role.obfuscation => true | Role.sshForward => false)
      (buildLayerSpec ⟨"P2", "your.server.com", 443, true, "openssh",
        ObfsKind.tlsRelay, [], 1080, 4433⟩) =
      ([Action.spawn Role.obfuscation, Action.spawn Role.sshForward,
        Action.kill Role.obfuscation], StartResult.failedAt Role.sshForward) :=
  ((SSHDynamicProxy.layer_start_order_and_teardown _ _).2.1 (by decide)).2.1 rfl rfl

/-- Count of registry entries keyed by a profile identity. -/
theorem SSHDynamicProxy.countP_key_of_lookup_none (reg : Registry) (pid : String)
    (h : reg.lookup pid = Option.none) :
    reg.countP (fun e => e.1 == pid) = 0 := by
  induction reg with
  | nil => simp
  | cons kv rest ih =>
      obtain ⟨k, v⟩ := kv
      cases hbeq : (pid == k) with
      | true => simp [List.lookup_cons, hbeq] at h
      | false =>
          simp only [List.lookup_cons, hbeq] at h
          have hne : k ≠ pid := fun he => by simp [he] at hbeq
          simp [List.countP_cons, beq_eq_false_iff_ne.mpr hne, ih h]

/-- Erasing the entry the lookup finds lowers the key count by one. -/
theorem SSHDynamicProxy.countP_key_eraseP (reg : Registry) (pid : String) (ph : Phase)
    (h : reg.lookup pid = some ph) :
    (reg.eraseP (fun e => e.1 == pid)).countP (fun e => e.1 == pid) + 1 =
      reg.countP (fun e => e.1 == pid) := by
  induction reg with
  | nil => simp [List.lookup] at h
  | cons kv rest ih =>
      obtain ⟨k, v⟩ := kv
      cases hbeq : (pid == k) with
      | true =>
          have hk : ((k, v).1 == pid) = true := by
            have he : pid = k := beq_iff_eq.mp hbeq
            simp [he]
          rw [List.eraseP_cons_of_pos (p := fun e => e.1 == pid) (a := (k, v)) hk]
          simp [List.countP_cons, hk]
      | false =>
          simp only [List.lookup_cons, hbeq] at h
          have hne : k ≠ pid := fun he => by simp [he] at hbeq
          have hkp : ((k, v).1 == pid) = false := beq_eq_false_iff_ne.mpr hne
          rw [List.eraseP_cons_of_neg (by simp [hkp])]
          simp [List.countP_cons, hkp, ih h]

/-- A start request preserves the registry's at-most-one-entry-per
profile invariant on every branch. -/
theorem SSHDynamicProxy.startReq_preserves_atMostOne (reg : Registry) (pid : String)
    (hwf : ∀ q : String, reg.countP (fun e => e.1 == q) ≤ 1) :
    ∀ q : String, (startReq reg pid).1.countP (fun e => e.1 == q) ≤ 1 := by
  intro q
  rcases hl : reg.lookup pid with _ | ph
  · have hred : (startReq reg pid).1 = (pid, Phase.starting) :: reg := by
      simp [startReq, hl]
    rw [hred]
    by_cases hq : pid = q
    · subst hq
      have h0 := countP_key_of_lookup_none reg pid hl
      simp [List.countP_cons, h0]
    · have hf : ((pid, Phase.starting).1 == q) = false := beq_eq_false_iff_ne.mpr hq
      simp [List.countP_cons, hf]
      exact hwf q
  · by_cases hnt : nonTerminal ph = true
    · have hred : (startReq reg pid).1 = reg := by simp [startReq, hl, hnt]
      rw [hred]; exact hwf q
    · have hred : (startReq reg pid).1 =
          (pid, Phase.starting) :: reg.eraseP (fun e => e.1 == pid) := by
        simp [startReq, hl, hnt]
      rw [hred]
      by_cases hq : pid = q
      · subst hq
        have hcnt := countP_key_eraseP reg pid ph hl
        have hb := hwf pid
        have hone : List.countP (fun e => e.1 == pid)
            ((pid, Phase.starting) :: reg.eraseP (fun e => e.1 == pid)) =
            List.countP (fun e => e.1 == pid) (reg.eraseP (fun e => e.1 == pid)) + 1 := by
          simp [List.countP_cons]
        rw [hone]
        omega
      · have hf : ((pid, Phase.starting).1 == q) = false := beq_eq_false_iff_ne.mpr hq
        have hsub : (reg.eraseP (fun e => e.1 == pid)).countP (fun e => e.1 == q) ≤
            reg.countP (fun e => e.1 == q) :=
          (List.eraseP_sublist reg).countP_le _
        simp [List.countP_cons, hf]
        exact le_trans hsub (hwf q)

/-- C4: a start request for a profile that already has an active,
non-terminal registered session is rejected with AlreadyRunning; the
registry is returned unchanged, so the profile still has exactly its
one registered session and no session state changes; and a start
request never breaks the at-most-one-session-per-profile invariant. -/
theorem SSHDynamicProxy.startReq_alreadyRunning_rejects (reg : Registry) (pid : String)
    (h : ∃ ph, reg.lookup pid = some ph ∧ nonTerminal ph = true) :
    startReq reg pid = (reg, StartReqRes.rejectedAlreadyRunning) ∧
    (∀ q : String, (startReq reg pid).1.countP (fun e => e.1 == q) =
      reg.countP (fun e => e.1 == q)) ∧
    (reg.countP (fun e => e.1 == pid) = 1 →
      (startReq reg pid).1.countP (fun e => e.1 == pid) = 1) ∧
    ((∀ q : String, reg.countP (fun e => e.1 == q) ≤ 1) →
      ∀ q : String, (startReq reg pid).1.countP (fun e => e.1 == q) ≤ 1) := by
  obtain ⟨ph, hl, hnt⟩ := h
  have hr : startReq reg pid = (reg, StartReqRes.rejectedAlreadyRunning) := by
    simp [startReq, hl, hnt]
  refine ⟨hr, fun q => by rw [hr], fun h1 => by rw [hr]; exact h1,
    fun hwf => startReq_preserves_atMostOne reg pid hwf⟩

/-- C4 witness: a second start for profile P1, whose session is
connected, is rejected and the registry keeps its single entry. -/
theorem SSHDynamicProxy.startReq_alreadyRunning_rejects_w :
    startReq [("P1", Phase.connected)] "P1" =
      ([("P1", Phase.connected)], StartReqRes.rejectedAlreadyRunning) :=
  (SSHDynamicProxy.startReq_alreadyRunning_rejects [("P1", Phase.connected)] "P1"
    ⟨Phase.connected, by decide, by decide⟩).1

/-- A non-empty validation result moves a start request straight to
Failed with the full error list and no supervisor action. -/
theorem SSHDynamicProxy.start_of_validate_ne_nil (env : BinEnv) (ok : Role → Bool)
    (p : Profile) (h : validate env p ≠ []) :
    start env ok p =
      ⟨Phase.failed (OrchError.validationFailed (validate env p)), []⟩ := by
  obtain ⟨e, es, hcons⟩ := List.exists_cons_of_ne_nil h
  simp [start, hcons]

/-- C5: a profile whose validation yields a non-empty error list makes
`start` spawn zero processes and fail directly with ValidationFailed
carrying that list; and validation is complete — each possible problem
(missing credentials, each out-of-range port, an unresolvable
obfuscation binary) is in the list exactly when it is present in the
profile, independently of the others. -/
theorem SSHDynamicProxy.validate_reports_all_and_blocks_start
    (env : BinEnv) (ok : Role → Bool) (p : Profile)
    (h : validate env p ≠ []) :
    start env ok p =
      ⟨Phase.failed (OrchError.validationFailed (validate env p)), []⟩ ∧
    (ValidationError.missingCredentials ∈ validate env p ↔ p.hasCredential = false) ∧
    (ValidationError.invalidPort "targetPort" p.targetPort ∈ validate env p ↔
      portValid p.targetPort = false) ∧
    (ValidationError.invalidPort "localSocksPort" p.localSocksPort ∈ validate env p ↔
      portValid p.localSocksPort = false) ∧
    (∀ n : String, ValidationError.binaryUnresolvable n ∈ validate env p ↔
      (obfsBinaryName p.obfs = some n ∧ resolvable env p.obfs = false)) := by
  refine ⟨start_of_validate_ne_nil env ok p h, ?_, ?_, ?_, ?_⟩
  · cases hbn : obfsBinaryName p.obfs <;>
      simp only [validate, hbn, List.mem_append] <;>
      split_ifs <;> simp_all
  · cases hbn : obfsBinaryName p.obfs <;>
      simp only [validate, hbn, List.mem_append] <;>
      split_ifs <;> simp_all
  · cases hbn : obfsBinaryName p.obfs <;>
      simp only [validate, hbn, List.mem_append] <;>
      split_ifs <;> simp_all
  · intro n
    cases hbn : obfsBinaryName p.obfs <;>
      simp only [validate, hbn, List.mem_append] <;>
      split_ifs <;> simp_all <;> exact eq_comm

/-- C5 witness: a profile lacking credentials is failed synchronously
with its validation list and no supervisor action. -/
theorem SSHDynamicProxy.validate_reports_all_and_blocks_start_w :
    start ⟨[], []⟩ (fun _ => true)
      ⟨"P1", "example.com", 22, false, "openssh", ObfsKind.none, [], 1080, 4433⟩ =
      ⟨Phase.failed (OrchError.validationFailed (validate ⟨[], []⟩
        ⟨"P1", "example.com", 22, false, "openssh", ObfsKind.none, [], 1080, 4433⟩)), []⟩ :=
  (SSHDynamicProxy.validate_reports_all_and_blocks_start ⟨[], []⟩ (fun _ => true)
    ⟨"P1", "example.com", 22, false, "openssh", ObfsKind.none, [], 1080, 4433⟩
    (by decide)).1

/-- C6: resolution probes the bundled application directory first and
the system search path second, preferring the bundled copy whenever it
exists; it fails with BinaryNotFound carrying the logical name and the
searched locations exactly when the binary is absent from both; and
starting a profile whose required obfuscation binary is absent from
both spawns zero processes and goes directly to Failed. -/
theorem SSHDynamicProxy.resolve_order_and_failfast (env : BinEnv) (name : String) :
    ((name ++ ".exe") ∈ env.bundled →
      resolve env name = ResolveResult.found (appDir ++ name ++ ".exe")) ∧
    ((name ++ ".exe") ∉ env.bundled → name ∈ env.searchPath →
      resolve env name = ResolveResult.found name) ∧
    (resolve env name = ResolveResult.notFound name [appDir, "PATH"] ↔
      ((name ++ ".exe") ∉ env.bundled ∧ name ∉ env.searchPath)) ∧
    (∀ (p : Profile) (ok : Role → Bool), obfsBinaryName p.obfs = some name →
      (name ++ ".exe") ∉ env.bundled → name ∉ env.searchPath →
      (start env ok p).actions = [] ∧
      (start env ok p).phase =
        Phase.failed (OrchError.validationFailed (validate env p))) := by
  refine ⟨fun hb => by simp [resolve, hb], fun hnb hs => by simp [resolve, hnb, hs],
    ⟨?_, fun hboth => by simp [resolve, hboth.1, hboth.2]⟩, ?_⟩
  · intro hr
    by_cases hb : (name ++ ".exe") ∈ env.bundled
    · simp [resolve, hb] at hr
    · by_cases hs : name ∈ env.searchPath
      · simp [resolve, hb, hs] at hr
      · exact ⟨hb, hs⟩
  · intro p ok hbn hnb hns
    have hres : resolve env name = ResolveResult.notFound name [appDir, "PATH"] := by
      simp [resolve, hnb, hns]
    have hrv : resolvable env p.obfs = false := by
      simp [resolvable, hbn, hres]
    have hmem : ValidationError.binaryUnresolvable name ∈ validate env p := by
      simp [validate, hbn, hrv]
    have hne : validate env p ≠ [] := List.ne_nil_of_mem hmem
    rw [start_of_validate_ne_nil env ok p hne]
    exact ⟨rfl, rfl⟩

/-- C6 witness: with no bundled copy and an empty search path the
stunnel binary fails resolution with the two searched locations. -/
theorem SSHDynamicProxy.resolve_order_and_failfast_w :
    resolve ⟨[], []⟩ "stunnel" = ResolveResult.notFound "stunnel" [appDir, "PATH"] :=
  (SSHDynamicProxy.resolve_order_and_failfast ⟨[], []⟩ "stunnel").2.2.1.mpr
    ⟨by decide, by decide⟩

mutual

/-- Every record a folder scan returns has a recognised lowercased
extension. -/
theorem PackageSense.readFilesRecursively_exts (fp : String) (t : FSTree) :
    ∀ r ∈ readFilesRecursively fp t, toLowerStr (extname r.name) ∈ packageExts :=
  match t with
  | FSTree.file _ _ _ => by intro r hr; simp [readFilesRecursively] at hr
  | FSTree.dir _ false _ => by intro r hr; simp [readFilesRecursively] at hr
  | FSTree.dir n true es => fun r hr =>
      PackageSense.readEntries_exts fp es r
        (by simpa [readFilesRecursively] using hr)

/-- Every record an entry-list scan returns has a recognised lowercased
extension. -/
theorem PackageSense.readEntries_exts (fp : String) (l : List FSTree) :
    ∀ r ∈ readEntries fp l, toLowerStr (extname r.name) ∈ packageExts :=
  match l with
  | [] => by intro r hr; simp [readEntries] at hr
  | e :: es => fun r hr => by
      rw [readEntries.eq_def] at hr
      rcases List.mem_append.mp hr with h1 | h2
      · cases e with
        | file n sz mt =>
            by_cases hx : toLowerStr (extname n) ∈ packageExts
            · simp only [hx, if_true] at h1
              rcases List.mem_singleton.mp h1 with rfl
              simpa using hx
            · simp [hx] at h1
        | dir n rd cs =>
            exact PackageSense.readFilesRecursively_exts (pathJoin fp n)
              (FSTree.dir n rd cs) r h1
      · exact PackageSense.readEntries_exts fp es r h2

end

/-- C8: the folder scan returns only regular files whose lowercased
extension is in the fixed installer/archive set, recursing into every
readable subdirectory in listing order, and a folder whose listing
throws contributes the records collected before the throw — nothing,
since the listing is the first read — with the exception never
propagated. -/
theorem PackageSense.readFilesRecursively_spec :
    (∀ (fp : String) (t : FSTree) (r : FileRec),
      r ∈ readFilesRecursively fp t → toLowerStr (extname r.name) ∈ packageExts) ∧
    (∀ (fp n : String) (es : List FSTree),
      readFilesRecursively fp (FSTree.dir n false es) = []) ∧
    (∀ (fp n : String) (es : List FSTree),
      readFilesRecursively fp (FSTree.dir n true es) = readEntries fp es) := by
  refine ⟨fun fp t r hr => PackageSense.readFilesRecursively_exts fp t r hr, ?_, ?_⟩ <;>
    intro fp n es <;> simp [readFilesRecursively]

/-- C8 witness: a concrete scan whose single record has the `.exe`
extension. -/
theorem PackageSense.readFilesRecursively_spec_w :
    PackageSense.toLowerStr (PackageSense.extname "setup.exe") ∈ PackageSense.packageExts :=
  PackageSense.readFilesRecursively_spec.1 "root"
    (FSTree.dir "downloads" true [FSTree.file "setup.exe" 5 0])
    ⟨"setup.exe", PackageSense.pathJoin "root" "setup.exe", 5, 0⟩
    (by simp [PackageSense.readFilesRecursively, PackageSense.readEntries]; decide)

/-- C9: for every analysis oracle and package list, the batch analysis
is total (it never rejects) and returns exactly the successful results,
one per succeeding package, in input order. -/
theorem PackageSense.batchAnalyzePackages_spec
    (analyze : Pkg → Except String AnalysisResult) (pkgs : List Pkg) :
    batchAnalyzePackages analyze pkgs =
      pkgs.filterMap (fun p => (analyze p).toOption) := by
  induction pkgs with
  | nil => simp [batchAnalyzePackages]
  | cons pkg rest ih =>
      rw [batchAnalyzePackages, List.filterMap_cons]
      cases h : analyze pkg <;> simp [h, Except.toOption, ih]
